import Mathlib

/-!
Verification of MayaStor components against their specification.

Shallow embedding of the relevant Rust sources:
* `mayastor/src/bdev/nexus/nexus_child.rs` (NexusChild open/close/probe_label)
* `mayastor/src/bdev/dev/nvmx/controller.rs` (NvmeController reset machinery)
* `mayastor/src/bdev/dev/nvmx/channel.rs` (NvmeIoChannelInner reset/shutdown/reinitialize)
* `mayastor/src/bdev/dev/uring.rs` (Uring create)
* `csi/src/node.rs` (CSI node publish/unpublish handlers)

Pure Rust functions become Lean functions; FFI calls and other effects are
passed in explicitly as environment records; `panic`-like aborts (unwrap on
`None`, out-of-range `drain`) are explicit outcome constructors.
-/

namespace Mayastor

/-- `ChildState` from nexus_child.rs: the state machine of a nexus child. -/
inductive ChildState where
  | Init
  | ConfigInvalid
  | Open
  | Closed
  | Faulted
deriving DecidableEq, Repr

/-- Observations of an SPDK `Bdev` used by nexus_child.rs: block count,
block length and total size in bytes. -/
structure Bdev where
  num_blocks : Nat
  block_len : Nat
  size_in_bytes : Nat
deriving DecidableEq, Repr

/-- A bdev descriptor; its identity is irrelevant to the claims, so it is
a bare tag. -/
structure Descriptor where
  id : Nat
deriving DecidableEq, Repr

/-- The `ChildError` enum from nexus_child.rs (error sources elided). -/
inductive ChildError where
  | ChildNotClosed
  | ChildTooSmall (child_size parent_size : Nat)
  | OpenChild
  | ClaimChild
  | ChildReadOnly
  | ChildInvalid
  | LabelAlloc
  | LabelRead
  | LabelInvalid
  | PartitionTableAlloc
  | PartitionTableRead
  | InvalidPartitionTable
  | PartitionTableChecksum
  | OpenWithoutBdev
deriving DecidableEq, Repr

/-- The fields of `NexusChild` that its pure logic touches (the raw io
channel pointer and the serde attributes play no role in the claims). -/
structure NexusChild where
  parent : String
  name : String
  bdev : Option Bdev
  state : ChildState
  repairing : Bool
  descriptor : Option Descriptor
deriving DecidableEq, Repr

/-- `NexusChild::new`. -/
def NexusChild.new (name parent : String) (bdev : Option Bdev) : NexusChild :=
  { name := name
    bdev := bdev
    parent := parent
    state := ChildState.Init
    descriptor := none
    repairing := false }

/-- Outcomes of the FFI calls made during `NexusChild::open`:
whether `Descriptor::open` succeeds (and with which descriptor), and the
errno returned by `spdk_bdev_module_claim_bdev`. -/
structure OpenEnv where
  descOpen : Except Unit Descriptor
  claimErrno : Int
deriving Repr

/-- `NexusChild::open` from nexus_child.rs lines 146-202: guard on state,
size check against the parent, descriptor open, module claim, then
publish the descriptor and transition to Open.  Returns the Rust result
together with the updated child. -/
def NexusChild.open (c : NexusChild) (parent_size : Nat) (env : OpenEnv) :
    Except ChildError String × NexusChild :=
  if c.state ≠ ChildState.Closed ∧ c.state ≠ ChildState.Init then
    (Except.error ChildError.ChildNotClosed, c)
  else
    match c.bdev with
    | some bdev =>
      let child_size := bdev.size_in_bytes
      if parent_size > child_size then
        (Except.error (ChildError.ChildTooSmall child_size parent_size),
          { c with state := ChildState.ConfigInvalid })
      else
        match env.descOpen with
        | Except.error _ =>
          (Except.error ChildError.OpenChild, { c with state := ChildState.Faulted })
        | Except.ok desc =>
          if env.claimErrno ≠ 0 then
            (Except.error ChildError.ClaimChild, { c with state := ChildState.Faulted })
          else
            (Except.ok c.name,
              { c with descriptor := some desc, state := ChildState.Open })
    | none => (Except.error ChildError.OpenWithoutBdev, c)

/-- Result of running `NexusChild::close`: either the returned `ChildState`,
or an abort, because `close` computes
`Rc::strong_count(self.descriptor.as_ref().unwrap())` for its debug log
before doing anything else, which aborts the process when `descriptor`
is `None`. -/
inductive CloseOutcome where
  | returns (s : ChildState)
  | panics
deriving DecidableEq, Repr

/-- `NexusChild::close` from nexus_child.rs lines 205-227: unwraps the
descriptor for the reference-count log, releases the bdev claim, drops the
descriptor and transitions to Closed. -/
def NexusChild.close (c : NexusChild) : CloseOutcome × NexusChild :=
  match c.descriptor with
  | none => (CloseOutcome.panics, c)
  | some _ =>
    (CloseOutcome.returns ChildState.Closed,
      { c with descriptor := none, state := ChildState.Closed })

/-- A single open or close operation applied to a child, with the
environment its FFI calls observe. -/
inductive ChildOp where
  | opOpen (parent_size : Nat) (env : OpenEnv)
  | opClose

/-- Apply one operation to a child; an aborting close leaves the child as
it was at the abort point. -/
def NexusChild.applyOp (c : NexusChild) : ChildOp → NexusChild
  | ChildOp.opOpen ps env => (c.open ps env).2
  | ChildOp.opClose => (c.close).2

/-- Run a sequence of open/close operations. -/
def NexusChild.run (c : NexusChild) : List ChildOp → NexusChild
  | [] => c
  | op :: ops => (c.applyOp op).run ops

/-- The invariant claimed by the spec: a descriptor exists iff the state is
Open or Faulted. -/
def descStateIff (c : NexusChild) : Prop :=
  c.descriptor.isSome ↔ (c.state = ChildState.Open ∨ c.state = ChildState.Faulted)

instance (c : NexusChild) : Decidable (descStateIff c) := by
  unfold descStateIff; infer_instance

/-- The direction of the invariant that the code does maintain. -/
def descStateImp (c : NexusChild) : Prop :=
  c.descriptor.isSome → (c.state = ChildState.Open ∨ c.state = ChildState.Faulted)

/-- A concrete bdev for counterexamples: 1024 blocks of 512 bytes. -/
def bdev0 : Bdev := { num_blocks := 1024, block_len := 512, size_in_bytes := 524288 }

/-- An open environment in which `Descriptor::open` fails. -/
def envDescFail : OpenEnv := { descOpen := Except.error (), claimErrno := 0 }

/-- An open environment in which everything succeeds. -/
def envOk : OpenEnv := { descOpen := Except.ok { id := 7 }, claimErrno := 0 }

theorem descStateImp_applyOp (c : NexusChild) (op : ChildOp)
    (h : descStateImp c) : descStateImp (c.applyOp op) := by
  cases op with
  | opOpen ps env =>
    by_cases hs : c.state ≠ ChildState.Closed ∧ c.state ≠ ChildState.Init
    · simpa [NexusChild.applyOp, NexusChild.open, hs] using h
    · have hstate : c.state = ChildState.Closed ∨ c.state = ChildState.Init := by
        tauto
      have hdnone : c.descriptor = none := by
        rcases hd : c.descriptor with _ | d
        · rfl
        · exfalso
          have h2 := h (by simp [hd])
          rcases hstate with h1 | h1 <;> rcases h2 with h2 | h2 <;>
            rw [h1] at h2 <;> exact ChildState.noConfusion h2
      rcases hb : c.bdev with _ | bdev
      · simpa [NexusChild.applyOp, NexusChild.open, hs, hb] using h
      · by_cases hsz : ps > bdev.size_in_bytes
        · intro hd
          simp [NexusChild.applyOp, NexusChild.open, hs, hb, hsz, hdnone] at hd
        · rcases he : env.descOpen with _ | desc
          · intro hd
            simp [NexusChild.applyOp, NexusChild.open, hs, hb, hsz, he]
          · by_cases hc : env.claimErrno ≠ 0
            · intro hd
              simp [NexusChild.applyOp, NexusChild.open, hs, hb, hsz, he, hc]
            · intro hd
              simp [NexusChild.applyOp, NexusChild.open, hs, hb, hsz, he, hc]
  | opClose =>
    simp only [NexusChild.applyOp, NexusChild.close]
    rcases hd : c.descriptor with _ | d
    · simpa [hd] using h
    · intro hx; simp at hx

theorem descStateImp_run (c : NexusChild) (ops : List ChildOp)
    (h : descStateImp c) : descStateImp (c.run ops) := by
  induction ops generalizing c with
  | nil => simpa [NexusChild.run] using h
  | cons op ops ih =>
    simp only [NexusChild.run]
    exact ih _ (descStateImp_applyOp c op h)

/-- **C2 counterexample.** Starting from `NexusChild::new` (state Init, no
descriptor) and performing one `open` in which `Descriptor::open` fails,
the child ends in state Faulted with `descriptor = None`: the claimed
iff-invariant (descriptor exists iff state ∈ {Open, Faulted}) is false
after that reachable open failure. -/
theorem C2_desc_state_iff_counterexample :
    ¬ descStateIff ((NexusChild.new "uri0" "nexus0" (some bdev0)).run
      [ChildOp.opOpen 1000 envDescFail]) := by
  decide

/-- **C2 (amended).** For every nexus child built by `NexusChild::new` and
every sequence of open/close operations, if the descriptor is present then
the state is Open or Faulted.  (The converse direction fails: a child whose
`Descriptor::open` or claim failed is Faulted with no descriptor, as the
counterexample shows.) -/
theorem C2_descriptor_implies_open_or_faulted
    (name parent : String) (b : Option Bdev) (ops : List ChildOp) :
    descStateImp ((NexusChild.new name parent b).run ops) := by
  apply descStateImp_run
  intro h
  simp [NexusChild.new] at h

/-- **C5.** `NexusChild::open` succeeds only from Closed or Init (from any
other state it returns `ChildNotClosed` and leaves the child unchanged),
and on success the backing bdev size is at least `parent_size`, the new
state is Open and the descriptor is present. -/
theorem C5_open_postconditions (c : NexusChild) (ps : Nat) (env : OpenEnv) :
    (∀ name c2, c.open ps env = (Except.ok name, c2) →
      (c.state = ChildState.Closed ∨ c.state = ChildState.Init) ∧
      c2.state = ChildState.Open ∧
      c2.descriptor.isSome = true ∧
      ∃ b, c.bdev = some b ∧ ps ≤ b.size_in_bytes) ∧
    (¬ (c.state = ChildState.Closed ∨ c.state = ChildState.Init) →
      c.open ps env = (Except.error ChildError.ChildNotClosed, c)) := by
  constructor
  · intro name c2 hok
    by_cases hs : c.state ≠ ChildState.Closed ∧ c.state ≠ ChildState.Init
    · simp [NexusChild.open, hs] at hok
    · refine ⟨by tauto, ?_⟩
      rcases hb : c.bdev with _ | bdev
      · simp [NexusChild.open, hs, hb] at hok
      · by_cases hsz : ps > bdev.size_in_bytes
        · simp [NexusChild.open, hs, hb, hsz] at hok
        · rcases he : env.descOpen with _ | desc
          · simp [NexusChild.open, hs, hb, hsz, he] at hok
          · by_cases hc : env.claimErrno ≠ 0
            · simp [NexusChild.open, hs, hb, hsz, he, hc] at hok
            · simp only [NexusChild.open, if_neg hs, hb, if_neg hsz, he,
                if_neg hc, Prod.mk.injEq] at hok
              refine ⟨?_, ?_, bdev, rfl, by omega⟩
              · rw [← hok.2]
              · rw [← hok.2]; rfl
  · intro hs
    have hs2 : c.state ≠ ChildState.Closed ∧ c.state ≠ ChildState.Init := by tauto
    simp [NexusChild.open, hs2]

/-- Witness for C5 at a concrete successful open from Init. -/
theorem C5_open_postconditions_witness :
    ((NexusChild.new "uri0" "nexus0" (some bdev0)).state = ChildState.Closed ∨
      (NexusChild.new "uri0" "nexus0" (some bdev0)).state = ChildState.Init) ∧
    ((NexusChild.new "uri0" "nexus0" (some bdev0)).open 1000 envOk).2.state
      = ChildState.Open ∧
    ((NexusChild.new "uri0" "nexus0" (some bdev0)).open 1000 envOk).2.descriptor.isSome
      = true ∧
    ∃ b, (NexusChild.new "uri0" "nexus0" (some bdev0)).bdev = some b ∧
      1000 ≤ b.size_in_bytes :=
  (C5_open_postconditions (NexusChild.new "uri0" "nexus0" (some bdev0)) 1000 envOk).1
    "uri0" ((NexusChild.new "uri0" "nexus0" (some bdev0)).open 1000 envOk).2 rfl

/-- **C10.** `NexusChild::close` aborts (unwrap of a `None` descriptor in
its reference-count log) whenever the descriptor is absent, and a second
close directly after a close that returned also aborts: close is not
idempotent. -/
theorem C10_close_panics_without_descriptor (c : NexusChild) :
    (c.descriptor = none → (c.close).1 = CloseOutcome.panics) ∧
    ((c.close).1 ≠ CloseOutcome.panics →
      (((c.close).2).close).1 = CloseOutcome.panics) := by
  constructor
  · intro h; simp [NexusChild.close, h]
  · intro h
    rcases hd : c.descriptor with _ | d
    · simp [NexusChild.close, hd] at h
    · simp [NexusChild.close, hd]

/-- Witness for C10 on a concrete child: a fresh child aborts on close,
and after a successful open, close returns once and aborts the second time. -/
theorem C10_close_panics_without_descriptor_witness :
    ((NexusChild.new "uri0" "nexus0" (some bdev0)).close).1 = CloseOutcome.panics ∧
    ((((NexusChild.new "uri0" "nexus0" (some bdev0)).open 1000 envOk).2.close).2.close).1
      = CloseOutcome.panics := by
  constructor
  · exact (C10_close_panics_without_descriptor
      (NexusChild.new "uri0" "nexus0" (some bdev0))).1 (by decide)
  · exact (C10_close_panics_without_descriptor
      ((NexusChild.new "uri0" "nexus0" (some bdev0)).open 1000 envOk).2).2 (by decide)

/-! ## NVMe I/O channel (channel.rs) -/

/-- An I/O qpair; only its identity matters to the channel logic, its SPDK
handle is a bare tag. -/
structure IoQpair where
  id : Nat
deriving DecidableEq, Repr

/-- The fields of `NvmeIoChannelInner` that drive reset/shutdown/
reinitialize; the poll group, poller and their SPDK handles do not affect
this control flow. -/
structure NvmeIoChannelInner where
  qpair : Option IoQpair
  is_shutdown : Bool
deriving DecidableEq, Repr

def ENODEV : Int := 19
def ENOMEM : Int := 12
def EBUSY : Int := 16

/-- `NvmeIoChannelInner::reset` (channel.rs lines 216-222): take the qpair,
dropping it, and return 0. -/
def NvmeIoChannelInner.reset (ch : NvmeIoChannelInner) : Int × NvmeIoChannelInner :=
  (0, { ch with qpair := none })

/-- `NvmeIoChannelInner::shutdown` (channel.rs lines 230-240): a no-op if
already shut down, otherwise reset and, if that returned 0, latch
`is_shutdown`. -/
def NvmeIoChannelInner.shutdown (ch : NvmeIoChannelInner) : Int × NvmeIoChannelInner :=
  if ch.is_shutdown then (0, ch)
  else
    let r := ch.reset
    if r.1 = 0 then (r.1, { r.2 with is_shutdown := true }) else r

/-- Outcomes of the FFI calls made during `reinitialize`: the result of
`IoQpair::create`, and the return codes of poll-group add and connect. -/
structure ReinitEnv where
  qpairCreate : Except Unit IoQpair
  addQpairRc : Int
  connectRc : Int
deriving Repr

/-- `NvmeIoChannelInner::reinitialize` (channel.rs lines 243-293): refuse
with -ENODEV when shut down; otherwise clear any stale qpair, create a new
qpair, add it to the poll group and connect it, storing it only when all
steps succeed. -/
def NvmeIoChannelInner.reinitialize (ch : NvmeIoChannelInner) (env : ReinitEnv) :
    Int × NvmeIoChannelInner :=
  if ch.is_shutdown then (-ENODEV, ch)
  else
    let ch2 := { ch with qpair := none }
    match env.qpairCreate with
    | Except.error _ => (-ENOMEM, ch2)
    | Except.ok q =>
      if env.addQpairRc ≠ 0 then (env.addQpairRc, ch2)
      else if env.connectRc ≠ 0 then (env.connectRc, ch2)
      else (0, { ch2 with qpair := some q })

/-- One operation on an I/O channel. -/
inductive ChanOp where
  | opReset
  | opShutdown
  | opReinit (env : ReinitEnv)

/-- Apply one channel operation, keeping only the updated channel. -/
def NvmeIoChannelInner.applyOp (ch : NvmeIoChannelInner) : ChanOp → NvmeIoChannelInner
  | ChanOp.opReset => (ch.reset).2
  | ChanOp.opShutdown => (ch.shutdown).2
  | ChanOp.opReinit env => (ch.reinitialize env).2

/-- Run a sequence of channel operations. -/
def NvmeIoChannelInner.runOps (ch : NvmeIoChannelInner) :
    List ChanOp → NvmeIoChannelInner
  | [] => ch
  | op :: ops => (ch.applyOp op).runOps ops

theorem chan_shutdown_sticky (ch : NvmeIoChannelInner) (op : ChanOp)
    (h : ch.is_shutdown = true) : (ch.applyOp op).is_shutdown = true := by
  cases op with
  | opReset => simpa [NvmeIoChannelInner.applyOp, NvmeIoChannelInner.reset] using h
  | opShutdown => simp [NvmeIoChannelInner.applyOp, NvmeIoChannelInner.shutdown, h]
  | opReinit env => simp [NvmeIoChannelInner.applyOp, NvmeIoChannelInner.reinitialize, h]

theorem chan_shutdown_qpair_none (ch : NvmeIoChannelInner) (op : ChanOp)
    (h : ch.is_shutdown = true) (hq : ch.qpair = none) :
    (ch.applyOp op).qpair = none := by
  cases op with
  | opReset => simp [NvmeIoChannelInner.applyOp, NvmeIoChannelInner.reset]
  | opShutdown => simp [NvmeIoChannelInner.applyOp, NvmeIoChannelInner.shutdown, h, hq]
  | opReinit env => simp [NvmeIoChannelInner.applyOp, NvmeIoChannelInner.reinitialize, h, hq]

/-- **C6.** Once a channel observes shutdown, `is_shutdown` is never
cleared by any later sequence of reset/shutdown/reinitialize operations;
any `reinitialize` call on it fails with -ENODEV leaving the channel
untouched; and if its qpair is gone (as it is right after `shutdown`), no
later sequence of operations ever installs a qpair again. -/
theorem C6_shutdown_is_terminal (ch : NvmeIoChannelInner) (env : ReinitEnv)
    (ops : List ChanOp) (h : ch.is_shutdown = true) :
    (ch.runOps ops).is_shutdown = true ∧
    ch.reinitialize env = (-ENODEV, ch) ∧
    (ch.qpair = none → (ch.runOps ops).qpair = none) := by
  refine ⟨?_, ?_, ?_⟩
  · induction ops generalizing ch with
    | nil => simpa [NvmeIoChannelInner.runOps] using h
    | cons op ops ih =>
      simp only [NvmeIoChannelInner.runOps]
      exact ih _ (chan_shutdown_sticky ch op h)
  · simp [NvmeIoChannelInner.reinitialize, h]
  · intro hq
    induction ops generalizing ch with
    | nil => simpa [NvmeIoChannelInner.runOps] using hq
    | cons op ops ih =>
      simp only [NvmeIoChannelInner.runOps]
      exact ih _ (chan_shutdown_sticky ch op h) (chan_shutdown_qpair_none ch op h hq)

/-- Witness for C6: a freshly shut-down channel stays shut down and empty
across a reset, a reinitialize attempt and another shutdown, and its
reinitialize fails with -ENODEV. -/
theorem C6_shutdown_is_terminal_witness :
    (NvmeIoChannelInner.runOps { qpair := none, is_shutdown := true }
      [ChanOp.opReset,
        ChanOp.opReinit { qpairCreate := Except.ok { id := 3 }, addQpairRc := 0, connectRc := 0 },
        ChanOp.opShutdown]).is_shutdown = true ∧
    NvmeIoChannelInner.reinitialize { qpair := none, is_shutdown := true }
      { qpairCreate := Except.ok { id := 3 }, addQpairRc := 0, connectRc := 0 }
      = (-ENODEV, { qpair := none, is_shutdown := true }) ∧
    ((NvmeIoChannelInner.qpair { qpair := none, is_shutdown := true } = none) →
      (NvmeIoChannelInner.runOps { qpair := none, is_shutdown := true }
        [ChanOp.opReset,
          ChanOp.opReinit { qpairCreate := Except.ok { id := 3 }, addQpairRc := 0, connectRc := 0 },
          ChanOp.opShutdown]).qpair = none) :=
  C6_shutdown_is_terminal { qpair := none, is_shutdown := true }
    { qpairCreate := Except.ok { id := 3 }, addQpairRc := 0, connectRc := 0 }
    [ChanOp.opReset,
      ChanOp.opReinit { qpairCreate := Except.ok { id := 3 }, addQpairRc := 0, connectRc := 0 },
      ChanOp.opShutdown] rfl

/-! ## NVMe controller reset (controller.rs) -/

/-- `NvmeControllerState` from controller.rs. -/
inductive NvmeControllerState where
  | Initializing
  | Running
  | Resetting
  | Destroying
deriving DecidableEq, Repr

/-- The `CoreError` variants reachable from `NvmeController::reset`. -/
inductive CoreError where
  | ResetDispatch (errno : Int)
deriving DecidableEq, Repr

/-- The fields of `NvmeController` its reset logic reads or writes (the
inner record holds only raw handles and pollers). -/
structure NvmeController where
  name : String
  id : Nat
  prchk_flags : Nat
  state : NvmeControllerState
deriving DecidableEq, Repr

/-- `NvmeController::set_state` from controller.rs lines 147-152.  The
body consists solely of the `info!("{} Transitioned from state {:?} to
{:?}", ...)` log statement: it never assigns `self.state`, so the
controller is returned unchanged. -/
def NvmeController.set_state (c : NvmeController)
    (new_state : NvmeControllerState) : NvmeController :=
  let _ := new_state
  c

/-- `NvmeController::reset` (controller.rs lines 212-274): reject with
EBUSY from Initializing/Destroying/Resetting, fail with ENOMEM when the
reset-context pool is exhausted, otherwise call
`set_state(Resetting)` and dispatch the channel traversal. -/
def NvmeController.reset (c : NvmeController) (poolAvailable : Bool) :
    Except CoreError Unit × NvmeController :=
  match c.state with
  | NvmeControllerState.Initializing =>
    (Except.error (CoreError.ResetDispatch EBUSY), c)
  | NvmeControllerState.Destroying =>
    (Except.error (CoreError.ResetDispatch EBUSY), c)
  | NvmeControllerState.Resetting =>
    (Except.error (CoreError.ResetDispatch EBUSY), c)
  | _ =>
    if poolAvailable then
      (Except.ok (), c.set_state NvmeControllerState.Resetting)
    else
      (Except.error (CoreError.ResetDispatch ENOMEM), c)

/-- `NvmeController::complete_reset` (controller.rs lines 276-289): look
the controller up, call `set_state(Running)`, drop the lock, then invoke
the user callback with `status == 0`.  Returns the controller as stored
after the call, paired with the boolean passed to the callback. -/
def NvmeController.complete_reset (c : NvmeController) (status : Int) :
    NvmeController × Bool :=
  (c.set_state NvmeControllerState.Running, status == 0)

/-- **C1 (code bug).** `complete_reset` does not change the stored state:
a controller whose state field is Resetting still has state Resetting when
the user callback is invoked (with the success flag for status 0), not
Running as claimed; symmetrically, `reset` leaves a Running controller in
state Running instead of Resetting, because `set_state` only logs the
transition and never assigns `self.state`. -/
theorem C1_complete_reset_does_not_set_running :
    (NvmeController.complete_reset
      { name := "nvme0", id := 1, prchk_flags := 0,
        state := NvmeControllerState.Resetting } 0)
      = ({ name := "nvme0", id := 1, prchk_flags := 0,
            state := NvmeControllerState.Resetting }, true) ∧
    (NvmeController.reset
      { name := "nvme0", id := 1, prchk_flags := 0,
        state := NvmeControllerState.Running } true).2.state
      = NvmeControllerState.Running := by
  constructor <;> rfl

/-! ## Uring backend create (uring.rs) -/

/-- The `NexusBdevError` variants reachable from `Uring::create`. -/
inductive NexusBdevError where
  | BdevExists (name : String)
  | BdevNotFound (name : String)
deriving DecidableEq, Repr

/-- The `Uring` descriptor parsed from a `uring://` URI (uring.rs);
`aliasUri` embeds the Rust field `alias`, which is a reserved word here. -/
structure Uring where
  name : String
  aliasUri : String
  blk_size : Nat
  uuid : Option Nat
deriving DecidableEq, Repr

/-- `Uring::get_name`. -/
def Uring.get_name (u : Uring) : String := u.name

/-- Outcomes of the runtime calls made during `Uring::create`: whether
`Bdev::lookup_by_name` finds an existing bdev of that name, and the name
of the bdev produced by `create_uring_bdev` (none when it returns null). -/
structure UringCreateEnv where
  lookup_by_name : String → Bool
  created : Option String

/-- `Uring::create` from uring.rs lines 82-114: if a bdev with this name
is already registered, fail with `BdevExists`; otherwise create the uring
bdev, set uuid and alias, and return its name, or `BdevNotFound` if the
creation returned null. -/
def Uring.create (u : Uring) (env : UringCreateEnv) : Except NexusBdevError String :=
  if env.lookup_by_name u.name then
    Except.error (NexusBdevError.BdevExists u.get_name)
  else
    match env.created with
    | some bdevName => Except.ok bdevName
    | none => Except.error (NexusBdevError.BdevNotFound u.get_name)

/-- A concrete uring descriptor for the counterexample. -/
def uring0 : Uring :=
  { name := "/dev/sda", aliasUri := "uring:///dev/sda", blk_size := 512, uuid := none }

/-- An environment in which a bdev named `/dev/sda` is already registered. -/
def uringEnvExists : UringCreateEnv :=
  { lookup_by_name := fun n => n = "/dev/sda", created := some "/dev/sda" }

/-- **C3 counterexample.** `Uring::create` on a URI whose bdev name is
already registered does not succeed with the existing name: it fails with
`BdevExists`. -/
theorem C3_create_not_idempotent_counterexample :
    Uring.create uring0 uringEnvExists
      = Except.error (NexusBdevError.BdevExists "/dev/sda") ∧
    Uring.create uring0 uringEnvExists ≠ Except.ok "/dev/sda" := by
  refine ⟨rfl, ?_⟩
  intro h
  exact Except.noConfusion (rfl.trans h :
    (Except.error (NexusBdevError.BdevExists "/dev/sda") : Except NexusBdevError String)
      = Except.ok "/dev/sda")

/-- **C3 (amended).** When a bdev with the uring descriptor's name is
already registered, `Uring::create` fails with
`BdevExists{name}` rather than returning the existing name as a success. -/
theorem C3_create_fails_with_bdev_exists (u : Uring) (env : UringCreateEnv)
    (h : env.lookup_by_name u.name = true) :
    u.create env = Except.error (NexusBdevError.BdevExists u.get_name) := by
  simp [Uring.create, h]

/-- Witness for the amended C3 at the concrete uring descriptor. -/
theorem C3_create_fails_with_bdev_exists_witness :
    Uring.create uring0 uringEnvExists
      = Except.error (NexusBdevError.BdevExists (Uring.get_name uring0)) :=
  C3_create_fails_with_bdev_exists uring0 uringEnvExists rfl

/-! ## probe_label (nexus_child.rs) -/

/-- Modelled from the spec: the GPT header fields that `probe_label` reads
(`nexus_label.rs`, which defines `GPTHeader`, is not part of the sources).
The spec lists an entry size, an entry count `num_entries`, the table
start LBA `lba_table` and a table CRC. -/
structure GPTHeader where
  entry_size : Nat
  num_entries : Nat
  lba_table : Nat
  table_crc : Nat
deriving DecidableEq, Repr

/-- Modelled from the spec: a GPT partition table entry (opaque to
`probe_label`, which only counts, checksums and collects them). -/
structure GptEntry where
  tag : Nat
deriving DecidableEq, Repr

/-- `NexusChild::can_rw`. -/
def NexusChild.can_rw (c : NexusChild) : Bool :=
  c.state = ChildState.Open || c.state = ChildState.Faulted

/-- Outcomes of the calls `probe_label` makes: buffer allocation (by
requested size), reads by byte offset (producing an opaque buffer-content
tag), and — modelled from the spec, since nexus_label.rs is not among the
sources — `GPTHeader::from_slice`, `GptEntry::from_slice` and
`GptEntry::checksum` as functions of those content tags. -/
structure ProbeEnv where
  allocOk : Nat → Bool
  read : Nat → Except Unit Nat
  parseHeader : Nat → Except Unit GPTHeader
  parseEntries : Nat → Nat → Except Unit (List GptEntry)
  checksum : List GptEntry → Nat

/-- Result of `probe_label`: a parsed label, a `ChildError`, or an abort —
`partitions.drain(.. 2)` aborts when fewer than two entries were parsed. -/
inductive ProbeOutcome where
  | ok (primary : GPTHeader) (partitions : List GptEntry)
  | err (e : ChildError)
  | panics
deriving DecidableEq, Repr

/-- The partition-table half of `probe_label` (nexus_child.rs lines
318-350), from a validated header onward: allocate the table buffer, read
the table at `lba_table * block_size` bytes, parse `num_entries` entries,
check the CRC, then `drain(.. 2)` — which aborts if fewer than two entries
exist — and keep the first two.  Also returns the byte offsets passed to
`read_at`, appended to `log`. -/
def probe_label_table (block_size : Nat) (label : GPTHeader) (log : List Nat)
    (env : ProbeEnv) : ProbeOutcome × List Nat :=
  let num_blocks := ((label.entry_size * label.num_entries) / block_size) + 1
  if ¬ env.allocOk (num_blocks * block_size) then
    (ProbeOutcome.err ChildError.PartitionTableAlloc, log)
  else
    let tableOff := label.lba_table * block_size
    match env.read tableOff with
    | Except.error _ =>
      (ProbeOutcome.err ChildError.PartitionTableRead, log ++ [tableOff])
    | Except.ok tbuf =>
      match env.parseEntries tbuf label.num_entries with
      | Except.error _ =>
        (ProbeOutcome.err ChildError.InvalidPartitionTable, log ++ [tableOff])
      | Except.ok partitions =>
        if env.checksum partitions ≠ label.table_crc then
          (ProbeOutcome.err ChildError.PartitionTableChecksum, log ++ [tableOff])
        else if partitions.length < 2 then
          (ProbeOutcome.panics, log ++ [tableOff])
        else
          (ProbeOutcome.ok label (partitions.take 2), log ++ [tableOff])

/-- `NexusChild::probe_label` (nexus_child.rs lines 269-351): require a
readable child with bdev and descriptor, read the primary header at byte
offset `block_size` (LBA 1), fall back — when the primary fails to parse —
to a read at offset `num_blocks - 1` (the raw block count, NOT scaled by
the block size), then process the partition table.  The second component
is the list of byte offsets passed to `read_at`, in order. -/
def NexusChild.probe_label (c : NexusChild) (env : ProbeEnv) :
    ProbeOutcome × List Nat :=
  if ¬ c.can_rw then (ProbeOutcome.err ChildError.ChildReadOnly, [])
  else
    match c.bdev, c.descriptor with
    | some bdev, some _ =>
      let block_size := bdev.block_len
      let primary := block_size
      let secondary := bdev.num_blocks - 1
      if ¬ env.allocOk block_size then (ProbeOutcome.err ChildError.LabelAlloc, [])
      else
        match env.read primary with
        | Except.error _ => (ProbeOutcome.err ChildError.LabelRead, [primary])
        | Except.ok buf1 =>
          match env.parseHeader buf1 with
          | Except.ok label => probe_label_table block_size label [primary] env
          | Except.error _ =>
            match env.read secondary with
            | Except.error _ =>
              (ProbeOutcome.err ChildError.LabelRead, [primary, secondary])
            | Except.ok buf2 =>
              match env.parseHeader buf2 with
              | Except.error _ =>
                (ProbeOutcome.err ChildError.LabelInvalid, [primary, secondary])
              | Except.ok label =>
                probe_label_table block_size label [primary, secondary] env
    | _, _ => (ProbeOutcome.err ChildError.ChildInvalid, [])

/-- A child open on `bdev0` (512-byte blocks, 1024 blocks). -/
def childOpen : NexusChild :=
  { parent := "nexus0", name := "uri0", bdev := some bdev0,
    state := ChildState.Open, repairing := false, descriptor := some { id := 7 } }

/-- An environment whose reads all succeed (content tag = offset) but in
which neither header parses, so both the primary and the backup are read. -/
def probeEnvBadLabels : ProbeEnv :=
  { allocOk := fun _ => true
    read := fun off => Except.ok off
    parseHeader := fun _ => Except.error ()
    parseEntries := fun _ _ => Except.error ()
    checksum := fun _ => 0 }

/-- **C4 (code bug).** On a child with 512-byte blocks and 1024 blocks
whose primary header is invalid, `probe_label` reads the primary at byte
offset `block_len = 512` (LBA 1 scaled by block size) but the backup at
byte offset `num_blocks - 1 = 1023` — the raw block index, NOT
`(num_blocks - 1) * block_len = 523776` as the same byte units would
require. -/
theorem C4_backup_read_offset_not_scaled :
    (childOpen.probe_label probeEnvBadLabels).2
      = [bdev0.block_len, bdev0.num_blocks - 1] ∧
    bdev0.num_blocks - 1 ≠ (bdev0.num_blocks - 1) * bdev0.block_len := by
  constructor
  · rfl
  · decide

/-- **C8.** If the child is readable, the primary header parses with
`num_entries < 2`, the partition table reads and parses into exactly
`num_entries` entries (per the spec for `GptEntry::from_slice`), and the
table CRC matches the header, then `probe_label` aborts at
`partitions.drain(.. 2)` instead of returning a `ChildError`. -/
theorem C8_drain_panics_on_few_entries (c : NexusChild) (env : ProbeEnv)
    (bdev : Bdev) (d : Descriptor) (b1 tb : Nat) (hdr : GPTHeader)
    (parts : List GptEntry)
    (hrw : c.can_rw = true)
    (hb : c.bdev = some bdev)
    (hd : c.descriptor = some d)
    (ha : ∀ n, env.allocOk n = true)
    (hr1 : env.read bdev.block_len = Except.ok b1)
    (hp1 : env.parseHeader b1 = Except.ok hdr)
    (hrt : env.read (hdr.lba_table * bdev.block_len) = Except.ok tb)
    (hpt : env.parseEntries tb hdr.num_entries = Except.ok parts)
    (hlen : parts.length = hdr.num_entries)
    (hfew : hdr.num_entries < 2)
    (hcrc : env.checksum parts = hdr.table_crc) :
    (c.probe_label env).1 = ProbeOutcome.panics := by
  simp only [NexusChild.probe_label, hrw, hb, hd, Bool.not_true, if_false]
  simp only [ha, hr1, hp1, Bool.not_true, if_false]
  simp only [probe_label_table, ha, hrt, hpt, Bool.not_true, if_false]
  simp [hcrc, hlen, hfew]

/-- A probe environment realizing the C8 hypotheses: the primary header
parses to a table of a single entry whose CRC matches. -/
def probeEnvOneEntry : ProbeEnv :=
  { allocOk := fun _ => true
    read := fun off => Except.ok off
    parseHeader := fun _ =>
      Except.ok { entry_size := 128, num_entries := 1, lba_table := 2, table_crc := 99 }
    parseEntries := fun _ n => Except.ok (List.replicate n { tag := 5 })
    checksum := fun _ => 99 }

/-- Witness for C8: the concrete one-entry child aborts in `probe_label`. -/
theorem C8_drain_panics_on_few_entries_witness :
    (childOpen.probe_label probeEnvOneEntry).1 = ProbeOutcome.panics :=
  C8_drain_panics_on_few_entries childOpen probeEnvOneEntry bdev0 { id := 7 }
    512 1024
    { entry_size := 128, num_entries := 1, lba_table := 2, table_crc := 99 }
    (List.replicate 1 { tag := 5 })
    rfl rfl rfl (fun _ => rfl) rfl rfl rfl rfl rfl (by decide) rfl

/-! ## CSI node plugin (csi/src/node.rs) -/

/-- The tonic status codes used by the node handlers. -/
inductive StatusCode where
  | InvalidArgument
  | Internal
  | Unknown
  | AlreadyExists
  | Unavailable
  | Unimplemented
deriving DecidableEq, Repr

/-- The CSI `AccessMode::Mode` enum. -/
inductive Mode where
  | Unknown
  | SingleNodeWriter
  | SingleNodeReaderOnly
  | MultiNodeReaderOnly
  | MultiNodeSingleWriter
  | MultiNodeMultiWriter
deriving DecidableEq, Repr

/-- `Mode::from_i32` as generated for the CSI proto enum. -/
def Mode.from_i32 (i : Int) : Option Mode :=
  if i = 0 then some Mode.Unknown
  else if i = 1 then some Mode.SingleNodeWriter
  else if i = 2 then some Mode.SingleNodeReaderOnly
  else if i = 3 then some Mode.MultiNodeReaderOnly
  else if i = 4 then some Mode.MultiNodeSingleWriter
  else if i = 5 then some Mode.MultiNodeMultiWriter
  else none

/-- The CSI `AccessMode` message: a raw i32 mode. -/
structure AccessMode where
  mode : Int
deriving DecidableEq, Repr

/-- The `VolumeCapability` fields used by `check_access_mode` (the access
type is handled separately by `get_access_type`). -/
structure VolumeCapability where
  access_mode : Option AccessMode
deriving DecidableEq, Repr

/-- `check_access_mode` from node.rs lines 68-102: writers pass, readers
pass only when the mount is readonly, everything else is an error. -/
def check_access_mode (volume_capability : Option VolumeCapability)
    (readonly : Bool) : Except String Unit :=
  match volume_capability with
  | some capability =>
    match capability.access_mode with
    | some access =>
      match Mode.from_i32 access.mode with
      | some mode =>
        match mode with
        | Mode.SingleNodeWriter => Except.ok ()
        | Mode.MultiNodeSingleWriter => Except.ok ()
        | Mode.SingleNodeReaderOnly =>
          if readonly then Except.ok ()
          else Except.error "volume capability: invalid combination of access mode and mount flag"
        | Mode.MultiNodeReaderOnly =>
          if readonly then Except.ok ()
          else Except.error "volume capability: invalid combination of access mode and mount flag"
        | Mode.Unknown => Except.error "volume capability: unknown access mode"
        | Mode.MultiNodeMultiWriter =>
          Except.error "volume capability: unsupported access mode"
      | none => Except.error "volume capability: invalid access mode"
    | none => Except.error "volume capability: missing access mode"
  | none => Except.error "missing volume capability"

/-- Rust `Path::parent` on the paths the node handlers pass it: `None` for
the empty path and for the root, otherwise everything before the last
component (faithful for paths without trailing slashes, the only ones the
claims exercise). -/
def pathParent (p : String) : Option String :=
  if p = "" ∨ p = "/" then none
  else
    let comps := p.splitOn "/"
    let par := String.intercalate "/" comps.dropLast
    if par = "" ∧ p.startsWith "/" then some "/" else some par

/-- The request fields of `NodePublishVolumeRequest` that the handler
prefix reads. -/
structure PublishRequest where
  volume_id : String
  target_path : String
  staging_target_path : String
  readonly : Bool
  volume_capability : Option VolumeCapability
  publish_context_uri : Option String
deriving DecidableEq, Repr

/-- Result of the `node_publish_volume` validation prefix: an error
status, an abort (the `.parent().unwrap()` on a parentless target path),
or control reaching the access-type dispatch. -/
inductive PublishOutcome where
  | errStatus (c : StatusCode)
  | panics
  | continues
deriving DecidableEq, Repr

/-- Filesystem effects observed by `node_publish_volume`: the result of
`fs::create_dir_all` on the target parent. -/
structure PublishEnv where
  create_dir_all : String → Except Unit Unit

/-- The validation prefix of `node_publish_volume` (node.rs lines
180-245), in source order: access-mode check, then
`Path::new(target_path).parent().unwrap()` and `create_dir_all`, and only
afterwards the emptiness checks on volume id, target path and staging
path and the publish-context uri lookup; the access-type dispatch that
follows is abstracted as `continues`. -/
def node_publish_volume (msg : PublishRequest) (env : PublishEnv) : PublishOutcome :=
  match check_access_mode msg.volume_capability msg.readonly with
  | Except.error _ => PublishOutcome.errStatus StatusCode.InvalidArgument
  | Except.ok _ =>
    match pathParent msg.target_path with
    | none => PublishOutcome.panics
    | some target_parent =>
      match env.create_dir_all target_parent with
      | Except.error _ => PublishOutcome.errStatus StatusCode.Internal
      | Except.ok _ =>
        if msg.volume_id = "" then PublishOutcome.errStatus StatusCode.InvalidArgument
        else if msg.target_path = "" then PublishOutcome.errStatus StatusCode.InvalidArgument
        else if msg.staging_target_path = "" then PublishOutcome.errStatus StatusCode.InvalidArgument
        else
          match msg.publish_context_uri with
          | none => PublishOutcome.errStatus StatusCode.InvalidArgument
          | some _ => PublishOutcome.continues

/-- **C9.** Any publish request that passes the access-mode check but
carries an empty (or root) `target_path` makes `node_publish_volume`
abort on `.parent().unwrap()` before the missing-target-path check can
return InvalidArgument. -/
theorem C9_publish_panics_on_parentless_target (msg : PublishRequest)
    (env : PublishEnv)
    (hcap : check_access_mode msg.volume_capability msg.readonly = Except.ok ())
    (htp : msg.target_path = "" ∨ msg.target_path = "/") :
    node_publish_volume msg env = PublishOutcome.panics := by
  simp [node_publish_volume, hcap, pathParent, htp]

/-- A publish request with a valid single-node-writer capability and an
empty target path. -/
def publishReqEmptyTarget : PublishRequest :=
  { volume_id := "3fa85f64-0000-0000-0000-000000000000"
    target_path := ""
    staging_target_path := "/var/lib/stage"
    readonly := false
    volume_capability := some { access_mode := some { mode := 1 } }
    publish_context_uri := some "nvmf://host/nqn" }

/-- Witness for C9 on the concrete empty-target request. -/
theorem C9_publish_panics_on_parentless_target_witness :
    node_publish_volume publishReqEmptyTarget
      { create_dir_all := fun _ => Except.ok () } = PublishOutcome.panics :=
  C9_publish_panics_on_parentless_target publishReqEmptyTarget
    { create_dir_all := fun _ => Except.ok () } rfl (Or.inl rfl)

/-- The request fields of `NodeUnpublishVolumeRequest`. -/
structure UnpublishRequest where
  volume_id : String
  target_path : String
deriving DecidableEq, Repr

/-- A mounted-filesystem record as returned by `mount::find_mount`; its
contents are irrelevant to the unpublish control flow. -/
structure MountInfo where
  source : String
deriving DecidableEq, Repr

/-- Filesystem and mount-table observations made by
`node_unpublish_volume`, together with the results of its mutating calls. -/
structure UnpublishEnv where
  pathExists : Bool
  isDir : Bool
  isFile : Bool
  findMountAtTarget : Option MountInfo
  bindUnmountRes : Except Unit Unit
  blockUnmountRes : Except Unit Unit

/-- A mutating filesystem action attempted by `node_unpublish_volume`. -/
inductive NodeAction where
  | unmount (path : String)
  | removeDir (path : String)
  | blockUnmount (path : String)
  | removeFile (path : String)
deriving DecidableEq, Repr

/-- Result of `node_unpublish_volume`. -/
inductive UnpubOutcome where
  | ok
  | errStatus (c : StatusCode)
deriving DecidableEq, Repr

/-- `node_unpublish_volume` (node.rs lines 492-615): validate the ids,
then — only if the target path exists — unmount and remove the directory
(filesystem volume) or unmount and remove the block special file (block
volume); a missing target is idempotent success.  The second component
records every mutating filesystem call attempted, in order. -/
def node_unpublish_volume (msg : UnpublishRequest) (env : UnpublishEnv) :
    UnpubOutcome × List NodeAction :=
  if msg.volume_id = "" then
    (UnpubOutcome.errStatus StatusCode.InvalidArgument, [])
  else if msg.target_path = "" then
    (UnpubOutcome.errStatus StatusCode.InvalidArgument, [])
  else if env.pathExists then
    if env.isDir then
      match env.findMountAtTarget with
      | none =>
        -- no mount: best-effort remove_dir, errors only logged
        (UnpubOutcome.ok, [NodeAction.removeDir msg.target_path])
      | some _ =>
        match env.bindUnmountRes with
        | Except.error _ =>
          (UnpubOutcome.errStatus StatusCode.Internal,
            [NodeAction.unmount msg.target_path])
        | Except.ok _ =>
          (UnpubOutcome.ok,
            [NodeAction.unmount msg.target_path,
              NodeAction.removeDir msg.target_path])
    else if env.isFile then
      (UnpubOutcome.errStatus StatusCode.Unknown, [])
    else
      match env.findMountAtTarget with
      | some _ =>
        match env.blockUnmountRes with
        | Except.error _ =>
          (UnpubOutcome.errStatus StatusCode.Internal,
            [NodeAction.blockUnmount msg.target_path])
        | Except.ok _ =>
          (UnpubOutcome.ok,
            [NodeAction.blockUnmount msg.target_path,
              NodeAction.removeFile msg.target_path])
      | none =>
        (UnpubOutcome.ok, [NodeAction.removeFile msg.target_path])
  else
    (UnpubOutcome.ok, [])

/-- **C7.** An unpublish request with non-empty volume id and target path
whose target path does not exist returns OK and attempts no unmount, no
directory removal and no file removal. -/
theorem C7_unpublish_missing_target_ok (msg : UnpublishRequest)
    (env : UnpublishEnv)
    (hv : msg.volume_id ≠ "") (ht : msg.target_path ≠ "")
    (he : env.pathExists = false) :
    node_unpublish_volume msg env = (UnpubOutcome.ok, []) := by
  simp [node_unpublish_volume, hv, ht, he]

/-- Witness for C7 on a concrete request against an empty filesystem. -/
theorem C7_unpublish_missing_target_ok_witness :
    node_unpublish_volume
      { volume_id := "3fa85f64-0000-0000-0000-000000000000",
        target_path := "/var/lib/target" }
      { pathExists := false, isDir := false, isFile := false,
        findMountAtTarget := none,
        bindUnmountRes := Except.ok (), blockUnmountRes := Except.ok () }
      = (UnpubOutcome.ok, []) :=
  C7_unpublish_missing_target_ok
    { volume_id := "3fa85f64-0000-0000-0000-000000000000",
      target_path := "/var/lib/target" }
    { pathExists := false, isDir := false, isFile := false,
      findMountAtTarget := none,
      bindUnmountRes := Except.ok (), blockUnmountRes := Except.ok () }
    (by decide) (by decide) rfl

end Mayastor
